import Mathlib

/-!
Verification of the MoaMoa landing page chat demo widget, shallowly embedded
from `src/static/js/tci_landing.js`.  The widget keeps an ordered list of chat
messages and a typing flag; `tciHandleChatSend` appends a user message and
schedules a one-shot delayed callback that classifies the text by substring
keyword match and appends a canned bot reply; `tciRenderMessages` turns the
state into a markup string.  The policy modal (`tciOpenModal`) is embedded as
a pure function from the external policy data to the resulting modal view.
-/

set_option maxHeartbeats 1000000

namespace Moamoa

/-- Sender of a chat message; the source uses the strings "user" and "bot". -/
inductive Sender where
  | user
  | bot
deriving DecidableEq

/-- A chat message object `{ id, sender, text }` as stored in
`tciMoamoaApp.tciChatMessages`. -/
structure ChatMessage where
  id : Nat
  sender : Sender
  text : String
deriving DecidableEq

/-- The chat widget state: the fields `tciChatMessages` and `tciIsTyping` of
the global `tciMoamoaApp` object (`tci_landing.js` lines 14-25). -/
structure ChatState where
  tciChatMessages : List ChatMessage
  tciIsTyping : Bool
deriving DecidableEq

/-- Initial widget state: one seed bot message with id 1, not typing
(`tci_landing.js` lines 19-24). -/
def tciInitialChatState : ChatState :=
  { tciChatMessages := [⟨1, Sender.bot, "안녕! 오늘 학용품 산 거 있어?"⟩],
    tciIsTyping := false }

/-- JavaScript `s.includes(sub)`: case-sensitive substring containment. -/
def jsIncludes (s sub : String) : Bool :=
  decide (sub.data <:+: s.data)

/-- The generic bot acknowledgment (line 167 of `tci_landing.js`). -/
def tciGenericReply : String := "알겠어! 기록해둘게."

/-- The school-supplies acknowledgment (line 170 of `tci_landing.js`). -/
def tciSchoolReply : String :=
  "오, 공부 열심히 하려나보다! 📚 [학용품]으로 3,000원 기록 완료! 참 잘했어!"

/-- The snack acknowledgment (line 172 of `tci_landing.js`). -/
def tciSnackReply : String :=
  "맛있게 먹었니? 😋 [간식]으로 분류했어. 이번 달 간식비가 조금 많아지는데 주의해볼까?"

/-- Keyword classification performed inside the timeout callback
(`tci_landing.js` lines 167-173): Set A = 공책/연필/문구점 is checked first,
then Set B = 과자/떡볶이, else the generic acknowledgment. -/
def tciBotResponse (tciInputText : String) : String :=
  if jsIncludes tciInputText "공책" || jsIncludes tciInputText "연필" ||
      jsIncludes tciInputText "문구점" then
    tciSchoolReply
  else if jsIncludes tciInputText "과자" || jsIncludes tciInputText "떡볶이" then
    tciSnackReply
  else
    tciGenericReply

/-- JavaScript `s.trim()`: the string with leading and trailing whitespace
removed, modelled on the character list. -/
def jsTrim (s : String) : String :=
  String.mk (((s.data.dropWhile Char.isWhitespace).reverse.dropWhile
    Char.isWhitespace).reverse)

/-- The synchronous part of `tciMoamoaApp.tciHandleChatSend`
(`tci_landing.js` lines 149-163): the guard rejects blank text or a send while
typing; otherwise it appends a user message stamped with the current clock,
sets the typing flag, and schedules the delayed completion.  The returned
`Option String` is the scheduled callback's captured input text
(`none` when nothing was scheduled). -/
def tciHandleChatSend (st : ChatState) (now : Nat) (tciInputText : String) :
    ChatState × Option String :=
  if (jsTrim tciInputText).data.isEmpty || st.tciIsTyping then
    (st, none)
  else
    ({ tciChatMessages := st.tciChatMessages ++ [⟨now, Sender.user, tciInputText⟩],
       tciIsTyping := true },
     some tciInputText)

/-- The deferred completion callback scheduled by `tciHandleChatSend`
(`tci_landing.js` lines 166-183): classifies the captured input text, appends
the bot reply stamped `Date.now() + 1`, and clears the typing flag. -/
def tciChatComplete (st : ChatState) (now : Nat) (tciInputText : String) : ChatState :=
  { tciChatMessages :=
      st.tciChatMessages ++ [⟨now + 1, Sender.bot, tciBotResponse tciInputText⟩],
    tciIsTyping := false }

/-- The widget together with its at-most-one scheduled timeout: `pending`
holds the input text captured by a scheduled, not yet fired, completion. -/
structure DemoState where
  chat : ChatState
  pending : Option String
deriving DecidableEq

/-- The demo as it starts: the seed state and no scheduled timeout. -/
def tciInitDemo : DemoState := ⟨tciInitialChatState, none⟩

/-- An event of the single-threaded UI loop: a user submission (a click on the
quick-reply button) or the firing of the scheduled timeout, each carrying the
clock value `Date.now()` at the moment it runs. -/
inductive ChatEvent where
  | send (now : Nat) (text : String)
  | complete (now : Nat)
deriving DecidableEq

/-- The clock value at which an event runs. -/
def tciEventTime : ChatEvent → Nat
  | ChatEvent.send now _ => now
  | ChatEvent.complete now => now

/-- One step of the event loop: a send runs `tciHandleChatSend` (recording the
newly scheduled callback, if any); a completion fires the pending callback,
consuming it, and is a no-op when none is scheduled. -/
def tciStep (s : DemoState) : ChatEvent → DemoState
  | ChatEvent.send now t =>
      match tciHandleChatSend s.chat now t with
      | (st2, some sched) => ⟨st2, some sched⟩
      | (st2, none) => ⟨st2, s.pending⟩
  | ChatEvent.complete now =>
      match s.pending with
      | some t => ⟨tciChatComplete s.chat now t, none⟩
      | none => s

/-- Run a sequence of events from a demo state. -/
def tciRun (s : DemoState) : List ChatEvent → DemoState
  | [] => s
  | e :: es => tciRun (tciStep s e) es

/-- The global render function `tciMoamoaApp.tciRenderMessages`
(`tci_landing.js` lines 189-220), minus the DOM write and scroll: the
`forEach` accumulating into `tciHtml` is a left fold, and the typing
indicator block is appended when `tciIsTyping` is set. -/
def tciRenderMessages (st : ChatState) : String :=
  let tciHtml :=
    st.tciChatMessages.foldl (fun tciHtml tciMsg =>
      if tciMsg.sender = Sender.user then
        tciHtml ++ "<div class=\"flex justify-end\">"
          ++ "<div class=\"max-w-[80%] p-3 rounded-2xl text-sm bg-blue-500 text-white rounded-tr-none\">"
          ++ tciMsg.text
          ++ "</div></div>"
      else
        tciHtml ++ "<div class=\"flex justify-start\">"
          ++ "<div class=\"w-8 h-8 bg-yellow-400 rounded-full flex items-center justify-center mr-2 text-white font-bold text-xs flex-shrink-0\">M</div>"
          ++ "<div class=\"max-w-[80%] p-3 rounded-2xl text-sm bg-gray-100 text-gray-800 rounded-tl-none\">"
          ++ tciMsg.text
          ++ "</div></div>") ""
  if st.tciIsTyping then
    tciHtml ++ "<div class=\"flex justify-start\">"
      ++ "<div class=\"w-8 h-8 bg-yellow-400 rounded-full flex items-center justify-center mr-2 text-white font-bold text-xs\">M</div>"
      ++ "<div class=\"bg-gray-100 p-3 rounded-2xl rounded-tl-none text-xs text-gray-500\">"
      ++ "입력 중..."
      ++ "</div></div>"
  else
    tciHtml

/-- The local render closure defined inside `tciInitChatDemo`
(`tci_landing.js` lines 96-126), embedded separately from the global one so
the two can be compared; again minus the DOM write and scroll. -/
def tciRenderMessagesLocal (st : ChatState) : String :=
  let tciHtml :=
    st.tciChatMessages.foldl (fun tciHtml tciMsg =>
      if tciMsg.sender = Sender.user then
        tciHtml ++ "<div class=\"flex justify-end\">"
          ++ "<div class=\"max-w-[80%] p-3 rounded-2xl text-sm bg-blue-500 text-white rounded-tr-none\">"
          ++ tciMsg.text
          ++ "</div></div>"
      else
        tciHtml ++ "<div class=\"flex justify-start\">"
          ++ "<div class=\"w-8 h-8 bg-yellow-400 rounded-full flex items-center justify-center mr-2 text-white font-bold text-xs flex-shrink-0\">M</div>"
          ++ "<div class=\"max-w-[80%] p-3 rounded-2xl text-sm bg-gray-100 text-gray-800 rounded-tl-none\">"
          ++ tciMsg.text
          ++ "</div></div>") ""
  if st.tciIsTyping then
    tciHtml ++ "<div class=\"flex justify-start\">"
      ++ "<div class=\"w-8 h-8 bg-yellow-400 rounded-full flex items-center justify-center mr-2 text-white font-bold text-xs\">M</div>"
      ++ "<div class=\"bg-gray-100 p-3 rounded-2xl rounded-tl-none text-xs text-gray-500\">"
      ++ "입력 중..."
      ++ "</div></div>"
  else
    tciHtml

/-- The external policy data object `window.tciMoamoaPolicyData`
(`{ terms, privacy }`), supplied by the surrounding page. -/
structure PolicyData where
  terms : String
  privacy : String
deriving DecidableEq

/-- The observable result of opening the policy modal: the title text, the
content text, whether the modal carries the `hidden` class, and the body
overflow style. -/
structure ModalView where
  title : String
  content : String
  hidden : Bool
  bodyOverflow : String
deriving DecidableEq

/-- The modal opening function `tciOpenModal` (`tci_landing.js` lines
236-255): picks the title from the type, reads the content from the external
policy data when that global is defined and leaves it the empty string
otherwise, then shows the modal. -/
def tciOpenModal (policyData : Option PolicyData) (tciType : String) : ModalView :=
  let tciTitle := if tciType = "terms" then "이용약관" else "개인정보처리방침"
  let tciContent :=
    match policyData with
    | some d => if tciType = "terms" then d.terms else d.privacy
    | none => ""
  { title := tciTitle, content := tciContent, hidden := false,
    bodyOverflow := "hidden" }

/-- Fixed markup written before a user message's text (the two
`tciHtml +=` wrapper lines of the user branch). -/
def tciUserBlockPre : String :=
  "<div class=\"flex justify-end\">"
    ++ "<div class=\"max-w-[80%] p-3 rounded-2xl text-sm bg-blue-500 text-white rounded-tr-none\">"

/-- Fixed markup written after a user message's text. -/
def tciUserBlockPost : String := "</div></div>"

/-- Fixed markup written before a bot message's text (the avatar circle and
the bubble opening of the bot branch). -/
def tciBotBlockPre : String :=
  "<div class=\"flex justify-start\">"
    ++ "<div class=\"w-8 h-8 bg-yellow-400 rounded-full flex items-center justify-center mr-2 text-white font-bold text-xs flex-shrink-0\">M</div>"
    ++ "<div class=\"max-w-[80%] p-3 rounded-2xl text-sm bg-gray-100 text-gray-800 rounded-tl-none\">"

/-- Fixed markup written after a bot message's text. -/
def tciBotBlockPost : String := "</div></div>"

/-- The markup block one message contributes to the rendered output: fixed
wrapper strings with the message text inserted verbatim between them. -/
def tciMsgBlock (tciMsg : ChatMessage) : String :=
  if tciMsg.sender = Sender.user then
    tciUserBlockPre ++ tciMsg.text ++ tciUserBlockPost
  else
    tciBotBlockPre ++ tciMsg.text ++ tciBotBlockPost

/-- The typing-indicator block appended when the typing flag is set. -/
def tciTypingBlock : String :=
  "<div class=\"flex justify-start\">"
    ++ "<div class=\"w-8 h-8 bg-yellow-400 rounded-full flex items-center justify-center mr-2 text-white font-bold text-xs\">M</div>"
    ++ "<div class=\"bg-gray-100 p-3 rounded-2xl rounded-tl-none text-xs text-gray-500\">"
    ++ "입력 중..."
    ++ "</div></div>"

/-- Concatenation of the per-message markup blocks, in list order. -/
def tciJoinBlocks : List ChatMessage → String
  | [] => ""
  | tciMsg :: rest => tciMsgBlock tciMsg ++ tciJoinBlocks rest

/-- The ids of the messages of a state, in list order. -/
def tciIds (st : ChatState) : List Nat := st.tciChatMessages.map ChatMessage.id

/-- Clock discipline on an event sequence: each event's `Date.now()` value
exceeds the previous event's (initially a bound `lb`) by at least 2. -/
def tciTimesAdmissible : Nat → List ChatEvent → Prop
  | _, [] => True
  | lb, e :: es => lb + 2 ≤ tciEventTime e ∧ tciTimesAdmissible (tciEventTime e) es

/-! ### Shared helper lemmas about sends, completions and runs -/

/-- Shape of an accepted send: guard passes, the user message is appended, the
typing flag is raised and a completion capturing the text is scheduled. -/
theorem tciHandleChatSend_accepted {st : ChatState} {t : String} (now : Nat)
    (hTyping : st.tciIsTyping = false)
    (hText : (jsTrim t).data.isEmpty = false) :
    tciHandleChatSend st now t =
      ({ tciChatMessages := st.tciChatMessages ++ [⟨now, Sender.user, t⟩],
         tciIsTyping := true }, some t) := by
  simp [tciHandleChatSend, hTyping, hText]

/-- An accepted send as a step of the event loop. -/
theorem tciStep_send_accepted {st : ChatState} {t : String} (p : Option String) (now : Nat)
    (hTyping : st.tciIsTyping = false)
    (hText : (jsTrim t).data.isEmpty = false) :
    tciStep ⟨st, p⟩ (ChatEvent.send now t) =
      ⟨⟨st.tciChatMessages ++ [⟨now, Sender.user, t⟩], true⟩, some t⟩ := by
  simp [tciStep, tciHandleChatSend_accepted now hTyping hText]

/-- Firing the scheduled completion consumes it. -/
theorem tciStep_complete_pending (st : ChatState) (t : String) (now : Nat) :
    tciStep ⟨st, some t⟩ (ChatEvent.complete now) = ⟨tciChatComplete st now t, none⟩ :=
  rfl

/-- The full accepted-submission cycle: a send followed by the completion
appends the user message and the classified bot reply and returns to the idle
state (typing flag cleared, nothing scheduled). -/
theorem tciRun_cycle {st : ChatState} {t : String} (n1 n2 : Nat)
    (hTyping : st.tciIsTyping = false)
    (hText : (jsTrim t).data.isEmpty = false) :
    tciRun ⟨st, none⟩ [ChatEvent.send n1 t, ChatEvent.complete n2] =
      ⟨⟨st.tciChatMessages ++
          [⟨n1, Sender.user, t⟩, ⟨n2 + 1, Sender.bot, tciBotResponse t⟩], false⟩,
        none⟩ := by
  simp [tciRun, tciStep_send_accepted none n1 hTyping hText, tciStep_complete_pending,
    tciChatComplete]

/-! ### Claim theorems -/

/-- C1: for every accepted submission (text non-blank after trimming, typing
flag down), the completed cycle appends exactly one bot message after the
user message, and its text is determined by case-sensitive substring
containment: a Set A keyword (공책/연필/문구점) gives the school-supplies
acknowledgment; otherwise a Set B keyword (과자/떡볶이) gives the snack
acknowledgment; otherwise the generic acknowledgment. -/
theorem tci_reply_classification (st : ChatState) (t : String) (n1 n2 : Nat)
    (hTyping : st.tciIsTyping = false)
    (hText : (jsTrim t).data.isEmpty = false) :
    ∃ botMsg : ChatMessage,
      (tciRun ⟨st, none⟩
            [ChatEvent.send n1 t, ChatEvent.complete n2]).chat.tciChatMessages =
        st.tciChatMessages ++ [⟨n1, Sender.user, t⟩, botMsg] ∧
      botMsg.sender = Sender.bot ∧
      (([⟨n1, Sender.user, t⟩, botMsg] : List ChatMessage).countP
          (fun m => decide (m.sender = Sender.bot)) = 1) ∧
      ((jsIncludes t "공책" || jsIncludes t "연필" || jsIncludes t "문구점") = true →
        botMsg.text = tciSchoolReply) ∧
      ((jsIncludes t "공책" || jsIncludes t "연필" || jsIncludes t "문구점") = false →
        (jsIncludes t "과자" || jsIncludes t "떡볶이") = true →
        botMsg.text = tciSnackReply) ∧
      ((jsIncludes t "공책" || jsIncludes t "연필" || jsIncludes t "문구점") = false →
        (jsIncludes t "과자" || jsIncludes t "떡볶이") = false →
        botMsg.text = tciGenericReply) := by
  refine ⟨⟨n2 + 1, Sender.bot, tciBotResponse t⟩, ?_, rfl, ?_, ?_, ?_, ?_⟩
  · rw [tciRun_cycle n1 n2 hTyping hText]
  · simp [List.countP, List.countP.go]
  · intro hA
    simp [tciBotResponse, hA]
  · intro hA hB
    simp [tciBotResponse, hA, hB]
  · intro hA hB
    simp [tciBotResponse, hA, hB, tciGenericReply]

/-- Witness for C1 at a concrete input with no keyword. -/
theorem tci_reply_classification_witness :
    tciInitialChatState.tciIsTyping = false ∧
    (jsTrim "안녕하세요").data.isEmpty = false ∧
    ∃ botMsg : ChatMessage,
      (tciRun ⟨tciInitialChatState, none⟩
            [ChatEvent.send 10 "안녕하세요", ChatEvent.complete 20]).chat.tciChatMessages =
        tciInitialChatState.tciChatMessages ++
          [⟨10, Sender.user, "안녕하세요"⟩, botMsg] ∧
      botMsg.sender = Sender.bot ∧
      (([⟨10, Sender.user, "안녕하세요"⟩, botMsg] : List ChatMessage).countP
          (fun m => decide (m.sender = Sender.bot)) = 1) ∧
      ((jsIncludes "안녕하세요" "공책" || jsIncludes "안녕하세요" "연필" ||
            jsIncludes "안녕하세요" "문구점") = true →
        botMsg.text = tciSchoolReply) ∧
      ((jsIncludes "안녕하세요" "공책" || jsIncludes "안녕하세요" "연필" ||
            jsIncludes "안녕하세요" "문구점") = false →
        (jsIncludes "안녕하세요" "과자" || jsIncludes "안녕하세요" "떡볶이") = true →
        botMsg.text = tciSnackReply) ∧
      ((jsIncludes "안녕하세요" "공책" || jsIncludes "안녕하세요" "연필" ||
            jsIncludes "안녕하세요" "문구점") = false →
        (jsIncludes "안녕하세요" "과자" || jsIncludes "안녕하세요" "떡볶이") = false →
        botMsg.text = tciGenericReply) :=
  ⟨rfl, by decide,
    tci_reply_classification tciInitialChatState "안녕하세요" 10 20 rfl (by decide)⟩

/-- C2: if the text contains a Set A keyword and also a Set B keyword, the
appended bot reply is the school-supplies acknowledgment (Set A is checked
first and wins the tie). -/
theorem tci_setA_wins (st : ChatState) (t : String) (n1 n2 : Nat)
    (hTyping : st.tciIsTyping = false)
    (hText : (jsTrim t).data.isEmpty = false)
    (hA : (jsIncludes t "공책" || jsIncludes t "연필" || jsIncludes t "문구점") = true)
    (_hB : (jsIncludes t "과자" || jsIncludes t "떡볶이") = true) :
    (tciRun ⟨st, none⟩
          [ChatEvent.send n1 t, ChatEvent.complete n2]).chat.tciChatMessages =
      st.tciChatMessages ++
        [⟨n1, Sender.user, t⟩, ⟨n2 + 1, Sender.bot, tciSchoolReply⟩] := by
  rw [tciRun_cycle n1 n2 hTyping hText]
  simp [tciBotResponse, hA]

/-- Witness for C2: "연필 사고 떡볶이 먹음" contains 연필 (Set A) and 떡볶이
(Set B); the reply is the school-supplies acknowledgment. -/
theorem tci_setA_wins_witness :
    (jsIncludes "연필 사고 떡볶이 먹음" "공책" || jsIncludes "연필 사고 떡볶이 먹음" "연필" ||
        jsIncludes "연필 사고 떡볶이 먹음" "문구점") = true ∧
    (jsIncludes "연필 사고 떡볶이 먹음" "과자" || jsIncludes "연필 사고 떡볶이 먹음" "떡볶이") = true ∧
    (tciRun ⟨tciInitialChatState, none⟩
          [ChatEvent.send 10 "연필 사고 떡볶이 먹음", ChatEvent.complete 20]).chat.tciChatMessages =
      tciInitialChatState.tciChatMessages ++
        [⟨10, Sender.user, "연필 사고 떡볶이 먹음"⟩, ⟨21, Sender.bot, tciSchoolReply⟩] :=
  ⟨by decide, by decide,
    tci_setA_wins tciInitialChatState "연필 사고 떡볶이 먹음" 10 20 rfl (by decide)
      (by decide) (by decide)⟩

/-- C3: a submission whose text is blank after trimming is a complete no-op on
any state: the step leaves the demo state (messages, typing flag, pending
callback) unchanged and nothing is scheduled. -/
theorem tci_blank_noop (s : DemoState) (n : Nat) (t : String)
    (hBlank : (jsTrim t).data.isEmpty = true) :
    tciStep s (ChatEvent.send n t) = s ∧
    tciHandleChatSend s.chat n t = (s.chat, none) := by
  have h : tciHandleChatSend s.chat n t = (s.chat, none) := by
    simp [tciHandleChatSend, hBlank]
  exact ⟨by simp [tciStep, h], h⟩

/-- Witness for C3 on the whitespace-only text "   ". -/
theorem tci_blank_noop_witness :
    (jsTrim "   ").data.isEmpty = true ∧
    tciStep tciInitDemo (ChatEvent.send 5 "   ") = tciInitDemo ∧
    tciHandleChatSend tciInitDemo.chat 5 "   " = (tciInitDemo.chat, none) :=
  ⟨by decide, (tci_blank_noop tciInitDemo 5 "   " (by decide)).1,
    (tci_blank_noop tciInitDemo 5 "   " (by decide)).2⟩

/-- C4: any send while the typing flag is up is rejected as a no-op; hence two
sends in immediate succession append exactly one user message (the first),
and at most one completion is pending (the one scheduled by the first). -/
theorem tci_typing_gates (st : ChatState) (t1 t2 : String) (n1 n2 : Nat)
    (hTyping : st.tciIsTyping = false)
    (hText : (jsTrim t1).data.isEmpty = false) :
    (∀ (st2 : ChatState) (n : Nat) (t : String), st2.tciIsTyping = true →
        tciHandleChatSend st2 n t = (st2, none)) ∧
    tciRun ⟨st, none⟩ [ChatEvent.send n1 t1, ChatEvent.send n2 t2] =
      ⟨⟨st.tciChatMessages ++ [⟨n1, Sender.user, t1⟩], true⟩, some t1⟩ := by
  constructor
  · intro st2 n t h2
    simp [tciHandleChatSend, h2]
  · have h1 := @tciStep_send_accepted st t1 none n1 hTyping hText
    have h2 : tciHandleChatSend
        ⟨st.tciChatMessages ++ [⟨n1, Sender.user, t1⟩], true⟩ n2 t2 =
        (⟨st.tciChatMessages ++ [⟨n1, Sender.user, t1⟩], true⟩, none) := by
      simp [tciHandleChatSend]
    simp only [tciRun]
    rw [h1]
    simp [tciStep, h2]

/-- Witness for C4: two immediate sends of "x" append a single user message. -/
theorem tci_typing_gates_witness :
    tciInitialChatState.tciIsTyping = false ∧
    (jsTrim "x").data.isEmpty = false ∧
    tciRun ⟨tciInitialChatState, none⟩ [ChatEvent.send 10 "x", ChatEvent.send 11 "x"] =
      ⟨⟨tciInitialChatState.tciChatMessages ++ [⟨10, Sender.user, "x"⟩], true⟩,
        some "x"⟩ :=
  ⟨rfl, by decide,
    (tci_typing_gates tciInitialChatState "x" "x" 10 11 rfl (by decide)).2⟩

/-- C5: the completion scheduled by an accepted submission fires exactly once:
after the cycle the typing flag is down, the message list has grown by
exactly two (the user message, then one bot message), nothing remains
scheduled, and any further completion event is a no-op. -/
theorem tci_complete_once (st : ChatState) (t : String) (n1 n2 : Nat)
    (hTyping : st.tciIsTyping = false)
    (hText : (jsTrim t).data.isEmpty = false) :
    tciRun ⟨st, none⟩ [ChatEvent.send n1 t, ChatEvent.complete n2] =
      ⟨⟨st.tciChatMessages ++
          [⟨n1, Sender.user, t⟩, ⟨n2 + 1, Sender.bot, tciBotResponse t⟩], false⟩,
        none⟩ ∧
    (tciRun ⟨st, none⟩
          [ChatEvent.send n1 t, ChatEvent.complete n2]).chat.tciChatMessages.length =
      st.tciChatMessages.length + 2 ∧
    (∀ n3 : Nat,
      tciStep (tciRun ⟨st, none⟩ [ChatEvent.send n1 t, ChatEvent.complete n2])
          (ChatEvent.complete n3) =
        tciRun ⟨st, none⟩ [ChatEvent.send n1 t, ChatEvent.complete n2]) := by
  have hc := tciRun_cycle n1 n2 hTyping hText
  refine ⟨hc, ?_, ?_⟩
  · rw [hc]
    simp
  · intro n3
    rw [hc]
    rfl

/-- Witness for C5 at a concrete accepted submission. -/
theorem tci_complete_once_witness :
    tciInitialChatState.tciIsTyping = false ∧
    (jsTrim "과자 샀어").data.isEmpty = false ∧
    (tciRun ⟨tciInitialChatState, none⟩
          [ChatEvent.send 30 "과자 샀어", ChatEvent.complete 40]).chat.tciChatMessages.length =
      tciInitialChatState.tciChatMessages.length + 2 :=
  ⟨rfl, by decide,
    (tci_complete_once tciInitialChatState "과자 샀어" 30 40 rfl (by decide)).2.1⟩

/-! ### Render lemmas -/

/-- One step of the render fold appends exactly the message's block. -/
theorem tciRenderFold_step (acc : String) (tciMsg : ChatMessage) :
    (if tciMsg.sender = Sender.user then
        acc ++ "<div class=\"flex justify-end\">"
          ++ "<div class=\"max-w-[80%] p-3 rounded-2xl text-sm bg-blue-500 text-white rounded-tr-none\">"
          ++ tciMsg.text
          ++ "</div></div>"
      else
        acc ++ "<div class=\"flex justify-start\">"
          ++ "<div class=\"w-8 h-8 bg-yellow-400 rounded-full flex items-center justify-center mr-2 text-white font-bold text-xs flex-shrink-0\">M</div>"
          ++ "<div class=\"max-w-[80%] p-3 rounded-2xl text-sm bg-gray-100 text-gray-800 rounded-tl-none\">"
          ++ tciMsg.text
          ++ "</div></div>") = acc ++ tciMsgBlock tciMsg := by
  by_cases hs : tciMsg.sender = Sender.user <;>
    simp [tciMsgBlock, hs, tciUserBlockPre, tciUserBlockPost, tciBotBlockPre,
      tciBotBlockPost, String.append_assoc]

/-- A fold whose step appends one block per message equals the accumulator
followed by the concatenation of the blocks. -/
theorem tciFoldBlocks (f : String → ChatMessage → String)
    (hf : ∀ (acc : String) (tciMsg : ChatMessage),
      f acc tciMsg = acc ++ tciMsgBlock tciMsg) :
    ∀ (l : List ChatMessage) (acc : String), l.foldl f acc = acc ++ tciJoinBlocks l := by
  intro l
  induction l with
  | nil =>
    intro acc
    simp [tciJoinBlocks]
  | cons m ms ih =>
    intro acc
    rw [List.foldl_cons, hf, ih]
    simp [tciJoinBlocks, String.append_assoc]

/-- The rendered markup is the per-message blocks in order, followed by the
typing-indicator block exactly when the typing flag is set. -/
theorem tciRenderMessages_eq (st : ChatState) :
    tciRenderMessages st =
      tciJoinBlocks st.tciChatMessages ++
        (if st.tciIsTyping then tciTypingBlock else "") := by
  obtain ⟨msgs, typing⟩ := st
  cases typing
  · simp only [tciRenderMessages]
    rw [tciFoldBlocks _ tciRenderFold_step]
    simp
  · simp only [tciRenderMessages]
    rw [tciFoldBlocks _ tciRenderFold_step]
    simp [tciTypingBlock, String.append_assoc]

/-! ### Substring-containment lemmas -/

/-- Substring containment is preserved by appending on the right. -/
theorem jsIncludes_append_left {a t : String} (b : String)
    (h : jsIncludes a t = true) : jsIncludes (a ++ b) t = true := by
  simp only [jsIncludes, decide_eq_true_eq] at h ⊢
  obtain ⟨u, v, huv⟩ := h
  exact ⟨u, v ++ b.data, by rw [String.data_append, ← huv]; simp⟩

/-- Substring containment is preserved by appending on the left. -/
theorem jsIncludes_append_right {b t : String} (a : String)
    (h : jsIncludes b t = true) : jsIncludes (a ++ b) t = true := by
  simp only [jsIncludes, decide_eq_true_eq] at h ⊢
  obtain ⟨u, v, huv⟩ := h
  exact ⟨a.data ++ u, v, by rw [String.data_append, ← huv]; simp⟩

/-- A string sandwiched between two fixed wrappers is contained verbatim in
the result. -/
theorem jsIncludes_sandwich (pre t post : String) :
    jsIncludes (pre ++ t ++ post) t = true := by
  simp only [jsIncludes, decide_eq_true_eq]
  exact ⟨pre.data, post.data, by simp⟩

/-- A message's text is contained verbatim in its own block. -/
theorem jsIncludes_msgBlock (tciMsg : ChatMessage) :
    jsIncludes (tciMsgBlock tciMsg) tciMsg.text = true := by
  by_cases hs : tciMsg.sender = Sender.user <;>
    simp only [tciMsgBlock, hs, if_true, if_false, ite_true, ite_false] <;>
    exact jsIncludes_sandwich _ _ _

/-- A member's text is contained in the concatenation of the blocks. -/
theorem jsIncludes_joinBlocks {m : ChatMessage} :
    ∀ {l : List ChatMessage}, m ∈ l → jsIncludes (tciJoinBlocks l) m.text = true := by
  intro l
  induction l with
  | nil => intro h; cases h
  | cons x xs ih =>
    intro hm
    simp only [tciJoinBlocks]
    rcases List.mem_cons.mp hm with h | h
    · subst h
      exact jsIncludes_append_left _ (jsIncludes_msgBlock m)
    · exact jsIncludes_append_right _ (ih h)

/-- The message list of a state only grows at its end under any step. -/
theorem tciStep_append (s : DemoState) (e : ChatEvent) :
    ∃ tail : List ChatMessage,
      (tciStep s e).chat.tciChatMessages = s.chat.tciChatMessages ++ tail := by
  cases e with
  | send now t =>
    by_cases hg : ((jsTrim t).data.isEmpty || s.chat.tciIsTyping) = true
    · exact ⟨[], by simp [tciStep, tciHandleChatSend, hg]⟩
    · rw [Bool.not_eq_true] at hg
      exact ⟨[⟨now, Sender.user, t⟩], by simp [tciStep, tciHandleChatSend, hg]⟩
  | complete now =>
    cases hp : s.pending with
    | none => exact ⟨[], by simp [tciStep, hp]⟩
    | some t =>
      exact ⟨[⟨now + 1, Sender.bot, tciBotResponse t⟩],
        by simp [tciStep, hp, tciChatComplete]⟩

/-- C7: the message list is append-only across any run of events (existing
entries are never reordered, modified or deleted), and render emits exactly
one block per message in list order, oldest first, with the typing indicator
appended exactly when the typing flag is set. -/
theorem tci_append_only :
    (∀ (s : DemoState) (es : List ChatEvent), ∃ tail : List ChatMessage,
        (tciRun s es).chat.tciChatMessages = s.chat.tciChatMessages ++ tail) ∧
    (∀ st : ChatState, tciRenderMessages st =
        tciJoinBlocks st.tciChatMessages ++
          (if st.tciIsTyping then tciTypingBlock else "")) := by
  constructor
  · intro s es
    induction es generalizing s with
    | nil => exact ⟨[], (List.append_nil _).symm⟩
    | cons e es ih =>
      obtain ⟨tail2, h2⟩ := ih (tciStep s e)
      obtain ⟨tail1, h1⟩ := tciStep_append s e
      refine ⟨tail1 ++ tail2, ?_⟩
      show (tciRun (tciStep s e) es).chat.tciChatMessages = _
      rw [h2, h1, List.append_assoc]
  · exact tciRenderMessages_eq

/-- C9: the local render closure defined inside `tciInitChatDemo` and the
global `tciMoamoaApp.tciRenderMessages` compute the same markup string on
every chat state. -/
theorem tci_render_equiv (st : ChatState) :
    tciRenderMessagesLocal st = tciRenderMessages st := rfl

/-- C10: render performs no escaping or transformation: the output is the
concatenation of fixed wrapper strings with each message's text inserted
verbatim, and hence contains every message's text as a literal substring. -/
theorem tci_render_verbatim (st : ChatState) (m : ChatMessage)
    (hm : m ∈ st.tciChatMessages) :
    tciRenderMessages st =
      tciJoinBlocks st.tciChatMessages ++
        (if st.tciIsTyping then tciTypingBlock else "") ∧
    jsIncludes (tciRenderMessages st) m.text = true := by
  refine ⟨tciRenderMessages_eq st, ?_⟩
  rw [tciRenderMessages_eq st]
  exact jsIncludes_append_left _ (jsIncludes_joinBlocks hm)

/-- Witness for C10 on the seed message of the initial state. -/
theorem tci_render_verbatim_witness :
    (⟨1, Sender.bot, "안녕! 오늘 학용품 산 거 있어?"⟩ : ChatMessage) ∈
        tciInitialChatState.tciChatMessages ∧
    jsIncludes (tciRenderMessages tciInitialChatState)
        (⟨1, Sender.bot, "안녕! 오늘 학용품 산 거 있어?"⟩ : ChatMessage).text = true :=
  ⟨by decide,
    (tci_render_verbatim tciInitialChatState
      ⟨1, Sender.bot, "안녕! 오늘 학용품 산 거 있어?"⟩ (by decide)).2⟩

/-- C8: with the external policy data object undefined, opening the policy
modal still succeeds silently: the content text is empty, the modal is shown,
and the title is still chosen from the requested type; the operation is a
total function, so no error is surfaced. -/
theorem tci_modal_missing_data (tciType : String) :
    (tciOpenModal none tciType).content = "" ∧
    (tciOpenModal none tciType).hidden = false ∧
    (tciOpenModal none tciType).title =
      (if tciType = "terms" then "이용약관" else "개인정보처리방침") :=
  ⟨rfl, rfl, rfl⟩

/-! ### Id uniqueness -/

/-- One step preserves strict monotonicity of the ids and bounds every id by
the event time plus one, provided the event time clears the previous bound
by at least 2. -/
theorem tciStep_idInv {s : DemoState} {lb : Nat} {e : ChatEvent}
    (hpair : List.Pairwise (· < ·) (tciIds s.chat))
    (hbound : ∀ i ∈ tciIds s.chat, i ≤ lb + 1)
    (ht : lb + 2 ≤ tciEventTime e) :
    List.Pairwise (· < ·) (tciIds (tciStep s e).chat) ∧
      ∀ i ∈ tciIds (tciStep s e).chat, i ≤ tciEventTime e + 1 := by
  have hlt : ∀ i ∈ tciIds s.chat, i < tciEventTime e := fun i hi => by
    have := hbound i hi
    omega
  have hle : ∀ i ∈ tciIds s.chat, i ≤ tciEventTime e + 1 := fun i hi => by
    have := hbound i hi
    omega
  cases e with
  | send now t =>
    simp only [tciEventTime] at hlt hle ⊢
    by_cases hg : ((jsTrim t).data.isEmpty || s.chat.tciIsTyping) = true
    · have hids : tciIds (tciStep s (ChatEvent.send now t)).chat = tciIds s.chat := by
        simp [tciStep, tciHandleChatSend, hg]
      rw [hids]
      exact ⟨hpair, hle⟩
    · rw [Bool.not_eq_true] at hg
      have hids : tciIds (tciStep s (ChatEvent.send now t)).chat =
          tciIds s.chat ++ [now] := by
        simp [tciStep, tciHandleChatSend, hg, tciIds]
      rw [hids]
      constructor
      · rw [List.pairwise_append]
        refine ⟨hpair, by simp, ?_⟩
        intro a ha b hb
        rw [List.mem_singleton] at hb
        subst hb
        exact hlt a ha
      · intro i hi
        rcases List.mem_append.mp hi with h | h
        · exact hle i h
        · rw [List.mem_singleton] at h
          omega
  | complete now =>
    simp only [tciEventTime] at hlt hle ⊢
    cases hp : s.pending with
    | none =>
      have hids : tciIds (tciStep s (ChatEvent.complete now)).chat = tciIds s.chat := by
        simp [tciStep, hp]
      rw [hids]
      exact ⟨hpair, hle⟩
    | some t =>
      have hids : tciIds (tciStep s (ChatEvent.complete now)).chat =
          tciIds s.chat ++ [now + 1] := by
        simp [tciStep, hp, tciChatComplete, tciIds]
      rw [hids]
      constructor
      · rw [List.pairwise_append]
        refine ⟨hpair, by simp, ?_⟩
        intro a ha b hb
        rw [List.mem_singleton] at hb
        subst hb
        have := hlt a ha
        omega
      · intro i hi
        rcases List.mem_append.mp hi with h | h
        · exact hle i h
        · rw [List.mem_singleton] at h
          omega

/-- Along any admissible run the ids stay strictly monotone. -/
theorem tciRun_idInv : ∀ (es : List ChatEvent) (s : DemoState) (lb : Nat),
    List.Pairwise (· < ·) (tciIds s.chat) →
    (∀ i ∈ tciIds s.chat, i ≤ lb + 1) →
    tciTimesAdmissible lb es →
    List.Pairwise (· < ·) (tciIds (tciRun s es).chat)
  | [], _, _, hpair, _, _ => hpair
  | e :: es, s, _, hpair, hbound, hadm => by
    obtain ⟨ht, hadm2⟩ := hadm
    obtain ⟨hp2, hb2⟩ := tciStep_idInv hpair hbound ht
    exact tciRun_idInv es (tciStep s e) (tciEventTime e) hp2 hb2 hadm2

/-- C6 counterexample: with the real timestamp ids, a send landing one
millisecond after a completion reuses the bot message's id.  Sending "x" at
time 1000, completing at 2500 (bot id 2501) and sending "y" at 2501 yields
two messages with id 2501, refuting the unconditional uniqueness claim. -/
theorem tci_ids_collision :
    tciIds (tciRun tciInitDemo
        [ChatEvent.send 1000 "x", ChatEvent.complete 2500,
          ChatEvent.send 2501 "y"]).chat = [1, 1000, 2501, 2501] ∧
    ¬ (tciIds (tciRun tciInitDemo
        [ChatEvent.send 1000 "x", ChatEvent.complete 2500,
          ChatEvent.send 2501 "y"]).chat).Nodup := by
  constructor
  · decide
  · decide

/-- C6 (amended): across any sequence of submissions and completions, the
message ids are strictly increasing in list order (so each newly appended
message's id exceeds every id already present) and no two messages share an
id, provided the clock discipline holds: every initial id is at most
`lb + 1` and each event's `Date.now()` exceeds the previous event's
(initially `lb`) by at least 2. -/
theorem tci_ids_unique (s : DemoState) (lb : Nat) (es : List ChatEvent)
    (hpair : List.Pairwise (· < ·) (tciIds s.chat))
    (hbound : ∀ i ∈ tciIds s.chat, i ≤ lb + 1)
    (hadm : tciTimesAdmissible lb es) :
    List.Pairwise (· < ·) (tciIds (tciRun s es).chat) ∧
      (tciIds (tciRun s es).chat).Nodup := by
  have h := tciRun_idInv es s lb hpair hbound hadm
  exact ⟨h, h.imp Nat.ne_of_lt⟩

/-- Witness for the amended C6 on a concrete admissible run. -/
theorem tci_ids_unique_witness :
    List.Pairwise (· < ·) (tciIds tciInitDemo.chat) ∧
    (∀ i ∈ tciIds tciInitDemo.chat, i ≤ 0 + 1) ∧
    tciTimesAdmissible 0
      [ChatEvent.send 2 "공책 샀어", ChatEvent.complete 4, ChatEvent.send 6 "x"] ∧
    (List.Pairwise (· < ·) (tciIds (tciRun tciInitDemo
        [ChatEvent.send 2 "공책 샀어", ChatEvent.complete 4,
          ChatEvent.send 6 "x"]).chat) ∧
      (tciIds (tciRun tciInitDemo
        [ChatEvent.send 2 "공책 샀어", ChatEvent.complete 4,
          ChatEvent.send 6 "x"]).chat).Nodup) :=
  ⟨by decide, by decide, by simp [tciTimesAdmissible, tciEventTime],
    tci_ids_unique tciInitDemo 0
      [ChatEvent.send 2 "공책 샀어", ChatEvent.complete 4, ChatEvent.send 6 "x"]
      (by decide) (by decide) (by simp [tciTimesAdmissible, tciEventTime])⟩

end Moamoa
